import Mathlib

/-!
Shallow embedding of the ON1Builder transaction core and lifecycle endpoints
(src/python/transaction_core.py and src/python/app_multi_chain.py).
Python floats are modelled as rationals; all arithmetic in the source is
exact decimal arithmetic on small values, so the rational model agrees with
the float semantics on every value the functions produce.
-/

namespace ON1Builder

/-- Model of a Python value stored in an opportunity dictionary field.
A missing key is modelled as `none` (dict.get returns the Python None).
`obj` stands for any other Python object, carrying only its truthiness;
the builtin float conversion raises TypeError on such values. -/
inductive PyVal where
  | none
  | str (s : String)
  | num (q : ℚ)
  | obj (truthyFlag : Bool)
deriving DecidableEq

/-- Python truthiness of a modelled value: None is falsy, a string is truthy
iff non-empty, a number is truthy iff non-zero. -/
def PyVal.truthy : PyVal → Bool
  | PyVal.none => false
  | PyVal.str s => !s.isEmpty
  | PyVal.num q => if q = 0 then false else true
  | PyVal.obj t => t

/-- Numeric value of a run of decimal digit characters (most significant first). -/
def digitsVal (cs : List Char) : ℕ :=
  cs.foldl (fun a c => a * 10 + (c.toNat - 48)) 0

/-- Decimal-literal fragment of the Python float conversion on strings:
an optional sign, then either digits, digits dot digits, digits dot, or
dot digits. Any other string fails (ValueError in the source, caught). -/
def parsePyFloat (s : String) : Option ℚ :=
  let cs := s.toList
  let signed : ℚ × List Char :=
    match cs with
    | '-' :: r => (-1, r)
    | '+' :: r => (1, r)
    | r => (1, r)
  let sign := signed.1
  let rest := signed.2
  let intPart := rest.takeWhile (fun c => c.isDigit)
  let rest2 := rest.dropWhile (fun c => c.isDigit)
  match rest2 with
  | [] =>
    if intPart.isEmpty then Option.none
    else some (sign * (digitsVal intPart : ℚ))
  | '.' :: fracCs =>
    if fracCs.all (fun c => c.isDigit) then
      if intPart.isEmpty && fracCs.isEmpty then Option.none
      else some (sign * ((digitsVal intPart : ℚ) +
        (digitsVal fracCs : ℚ) / (10 : ℚ) ^ fracCs.length))
    else Option.none
  | _ => Option.none

/-- The Python float conversion applied to a modelled value: numbers convert
to themselves, strings go through the decimal parser, None and any other
object raise (TypeError in the source, caught by the caller). -/
def pyFloat : PyVal → Option ℚ
  | PyVal.none => Option.none
  | PyVal.str s => parsePyFloat s
  | PyVal.num q => some q
  | PyVal.obj _ => Option.none

/-- An opportunity dictionary: the two fields the core reads, a missing key
modelled as `PyVal.none`. Extra keys are opaque pass-through data the core
never reads, so they are not modelled. -/
structure Opportunity where
  token : PyVal := PyVal.none
  amount : PyVal := PyVal.none
deriving DecidableEq

/-- The dictionary returned by simulate_transaction. -/
structure SimulationResult where
  success : Bool
  gas_used : ℕ
  gas_price_gwei : ℕ
  estimated_cost_eth : ℚ
  estimated_profit_eth : ℚ
deriving DecidableEq

/-- Embedding of simulate_transaction (transaction_core.py, lines 16-62):
baseline gas 100000 plus 50000 when the token field is truthy; gas price 20,
or 50 on chain "137"; cost = gas_used * gas_price_gwei / 1e9; profit defaults
to 0.005 and is overridden with amount * 0.01 when the amount field is truthy
and the float conversion succeeds (a failed conversion is swallowed). -/
def simulate_transaction (chain_id : String) (opportunity : Opportunity) :
    SimulationResult :=
  let gas_used : ℕ :=
    if opportunity.token.truthy then 100000 + 50000 else 100000
  let gas_price_gwei : ℕ := if chain_id = "137" then 50 else 20
  let estimated_cost_eth : ℚ :=
    ((gas_used : ℚ) * (gas_price_gwei : ℚ)) / 1000000000
  let estimated_profit_eth : ℚ :=
    if opportunity.amount.truthy then
      match pyFloat opportunity.amount with
      | some amount => amount * 0.01
      | Option.none => 0.005
    else 0.005
  { success := true
    gas_used := gas_used
    gas_price_gwei := gas_price_gwei
    estimated_cost_eth := estimated_cost_eth
    estimated_profit_eth := estimated_profit_eth }

/-- The dictionary returned by execute_transaction; the branches of the
source return dictionaries with different key sets, modelled as optional
fields defaulting to absent. -/
structure ExecutionResult where
  success : Bool
  error : Option String := Option.none
  details : Option SimulationResult := Option.none
  transaction_hash : Option String := Option.none
  gas_used : Option ℕ := Option.none
  gas_price_gwei : Option ℕ := Option.none
  cost_eth : Option ℚ := Option.none
  profit_eth : Option ℚ := Option.none
deriving DecidableEq

/-- Embedding of execute_transaction (transaction_core.py, lines 65-113),
paired with the number of times the final executor step (the success return
block) is reached: simulate first, reject with "Simulation failed" when the
simulation result is unsuccessful, reject with "Profit is less than or equal
to cost" when profit does not strictly exceed cost, otherwise execute. -/
def execute_transaction (chain_id : String) (opportunity : Opportunity) :
    ExecutionResult × ℕ :=
  let sim_result := simulate_transaction chain_id opportunity
  if !sim_result.success then
    ({ success := false
       error := some "Simulation failed"
       details := some sim_result }, 0)
  else if sim_result.estimated_profit_eth ≤ sim_result.estimated_cost_eth then
    ({ success := false
       error := some "Profit is less than or equal to cost"
       details := some sim_result }, 0)
  else
    ({ success := true
       transaction_hash :=
         some "0x1234567890abcdef1234567890abcdef1234567890abcdef1234567890abcdef"
       gas_used := some sim_result.gas_used
       gas_price_gwei := some sim_result.gas_price_gwei
       cost_eth := some sim_result.estimated_cost_eth
       profit_eth := some sim_result.estimated_profit_eth }, 1)

/-- The five values ever assigned to the bot_status entry of the Flask app
configuration (app_multi_chain.py). -/
inductive BotStatus where
  | stopped
  | starting
  | running
  | stopping
  | error
deriving DecidableEq

/-- The string form of each status, as stored in the source. -/
def BotStatus.toString : BotStatus → String
  | BotStatus.stopped => "stopped"
  | BotStatus.starting => "starting"
  | BotStatus.running => "running"
  | BotStatus.stopping => "stopping"
  | BotStatus.error => "error"

/-- A JSON response of the lifecycle endpoints: status, message, HTTP code. -/
structure ApiResponse where
  status : String
  message : String
  http_code : ℕ
deriving DecidableEq

/-- The mutable application state the lifecycle endpoints read and write:
the bot status, whether the core object is initialized (core is not None),
and a count of control-loop tasks created so far (each loop.create_task in
start_bot adds one). -/
structure AppState where
  bot_status : BotStatus
  core_initialized : Bool
  tasks_spawned : ℕ
deriving DecidableEq

/-- Embedding of the synchronous effect of start_bot (app_multi_chain.py,
lines 207-259): reject with 400 when the status is "running"; reject with
500 when the core is not initialized; otherwise set the status to
"starting", create a control-loop task and report success. -/
def start_bot (s : AppState) : AppState × ApiResponse :=
  if s.bot_status = BotStatus.running then
    (s, { status := "error", message := "Bot is already running", http_code := 400 })
  else if !s.core_initialized then
    (s, { status := "error", message := "Core not initialized", http_code := 500 })
  else
    ({ s with bot_status := BotStatus.starting, tasks_spawned := s.tasks_spawned + 1 },
     { status := "success", message := "Bot started", http_code := 200 })

/-- Embedding of the synchronous effect of stop_bot (app_multi_chain.py,
lines 263-316): reject with 400 when the status is not "running"; reject
with 500 when the core is not initialized; otherwise set the status to
"stopping", schedule the stop task and report success. -/
def stop_bot (s : AppState) : AppState × ApiResponse :=
  if s.bot_status ≠ BotStatus.running then
    (s, { status := "error"
          message := "Bot is not running (status: " ++ s.bot_status.toString ++ ")"
          http_code := 400 })
  else if !s.core_initialized then
    (s, { status := "error", message := "Core not initialized", http_code := 500 })
  else
    ({ s with bot_status := BotStatus.stopping },
     { status := "success", message := "Bot stopping", http_code := 200 })

/-- The JSON response of the simulate-transaction endpoint. -/
structure SimulateEndpointResponse where
  status : String
  message : String
  http_code : ℕ
  chain_id : Option String := Option.none
  result : Option SimulationResult := Option.none
deriving DecidableEq

/-- Embedding of simulate_transaction_endpoint (app_multi_chain.py, lines
361-407), paired with the number of simulate_transaction invocations and
the number of executor invocations it performs (the endpoint body contains
no executor call at all, so the second count is 0 on every path): reject
with 500 when the core is not initialized; reject with 400 when the chain
is not among the active workers; otherwise simulate once and report the
result. -/
def simulate_transaction_endpoint (workers : List String) (core_initialized : Bool)
    (chain_id : String) (opportunity : Opportunity) :
    SimulateEndpointResponse × ℕ × ℕ :=
  if !core_initialized then
    ({ status := "error", message := "Core not initialized", http_code := 500 }, 0, 0)
  else if chain_id ∈ workers then
    let sim_result := simulate_transaction chain_id opportunity
    ({ status := "success"
       message := "Transaction simulated"
       http_code := 200
       chain_id := some chain_id
       result := some sim_result }, 1, 0)
  else
    ({ status := "error"
       message := "Chain " ++ chain_id ++ " is not active"
       http_code := 400 }, 0, 0)

/-- The simulation result always carries success = true: the source writes
the literal True into the returned dictionary on its only return path. -/
theorem simulate_success (chain_id : String) (o : Opportunity) :
    (simulate_transaction chain_id o).success = true := rfl

/-- The missing value is falsy. -/
theorem truthy_none : PyVal.none.truthy = false := rfl

/-- C1: for every chain ID and opportunity, the profitability gate inside
execute_transaction accepts (the executor step runs exactly once and the
result is successful) if and only if the simulation result is successful
and its estimated profit strictly exceeds its estimated cost; when the
profit does not strictly exceed the cost the pipeline returns a failure
result and the executor step is not reached. -/
theorem C1_gate_accept_iff (chain_id : String) (o : Opportunity) :
    (((execute_transaction chain_id o).2 = 1 ∧
        (execute_transaction chain_id o).1.success = true) ↔
      ((simulate_transaction chain_id o).success = true ∧
        (simulate_transaction chain_id o).estimated_cost_eth <
          (simulate_transaction chain_id o).estimated_profit_eth)) ∧
    ((simulate_transaction chain_id o).estimated_profit_eth ≤
        (simulate_transaction chain_id o).estimated_cost_eth →
      (execute_transaction chain_id o).1.success = false ∧
        (execute_transaction chain_id o).2 = 0) := by
  have hs := simulate_success chain_id o
  by_cases h : (simulate_transaction chain_id o).estimated_profit_eth ≤
      (simulate_transaction chain_id o).estimated_cost_eth
  · refine ⟨?_, fun _ => ?_⟩
    · simp [execute_transaction, hs, h, not_lt.mpr h]
    · constructor <;> simp [execute_transaction, hs, h]
  · refine ⟨?_, fun hc => absurd hc h⟩
    simp [execute_transaction, hs, h, not_le.mp h]

/-- C1 witness: on chain "137" with the empty opportunity the profit equals
the cost, the pipeline rejects and the executor step is not reached. -/
theorem C1_gate_accept_iff_witness :
    (execute_transaction "137" ⟨PyVal.none, PyVal.none⟩).1.success = false ∧
    (execute_transaction "137" ⟨PyVal.none, PyVal.none⟩).2 = 0 :=
  (C1_gate_accept_iff "137" ⟨PyVal.none, PyVal.none⟩).2
    (by simp [simulate_transaction, pyFloat, PyVal.truthy]; norm_num)

/-- C2: the scenario simulate("1", the token "0xabc" with amount "1.0")
yields success, gas 150000 (baseline plus the token surcharge), gas price
20, cost 0.003, profit 0.01, and the gate accepts this result. -/
theorem C2_scenario_a :
    simulate_transaction "1" ⟨PyVal.str "0xabc", PyVal.str "1.0"⟩ =
      { success := true
        gas_used := 150000
        gas_price_gwei := 20
        estimated_cost_eth := 0.003
        estimated_profit_eth := 0.01 } ∧
    (execute_transaction "1" ⟨PyVal.str "0xabc", PyVal.str "1.0"⟩).1.success = true ∧
    (execute_transaction "1" ⟨PyVal.str "0xabc", PyVal.str "1.0"⟩).2 = 1 := by
  have ht : (PyVal.str "0xabc").truthy = true := by decide
  have ha : (PyVal.str "1.0").truthy = true := by decide
  have hp : parsePyFloat "1.0" = some 1 := by simp [parsePyFloat, digitsVal]
  refine ⟨?_, ?_, ?_⟩
  · simp [simulate_transaction, pyFloat, ht, ha, hp]
    norm_num
  · simp [execute_transaction, simulate_transaction, pyFloat, ht, ha, hp]
    norm_num
  · simp [execute_transaction, simulate_transaction, pyFloat, ht, ha, hp]
    norm_num

/-- C3 counterexample: a start call while the bot status is "starting" is
accepted (status "success") and creates a second control-loop task, whereas
the claim states that a start call in the Starting state is rejected with
AlreadyRunning. -/
theorem C3_counterexample :
    (start_bot ⟨BotStatus.starting, true, 1⟩).2.status = "success" ∧
    (start_bot ⟨BotStatus.starting, true, 1⟩).2.message = "Bot started" ∧
    (start_bot ⟨BotStatus.starting, true, 1⟩).1.tasks_spawned = 2 := by decide

/-- C3 (amended): with the core initialized, a start call is rejected with
the AlreadyRunning error exactly when the bot status is Running; from every
other status (Stopped, Starting, Stopping, Error — in particular Error) the
call is accepted, moves the status to Starting and spawns one control-loop
task. -/
theorem C3_start_reject_iff (s : AppState) (hcore : s.core_initialized = true) :
    (s.bot_status = BotStatus.running →
      start_bot s =
        (s, { status := "error", message := "Bot is already running", http_code := 400 })) ∧
    (s.bot_status ≠ BotStatus.running →
      (start_bot s).2.status = "success" ∧
      (start_bot s).1.bot_status = BotStatus.starting ∧
      (start_bot s).1.tasks_spawned = s.tasks_spawned + 1) := by
  constructor
  · intro h
    simp [start_bot, h]
  · intro h
    simp [start_bot, h, hcore]

/-- C3 witness: a start call from the Error state with the core initialized
is accepted and moves the status to Starting. -/
theorem C3_start_reject_iff_witness :
    (start_bot ⟨BotStatus.error, true, 0⟩).2.status = "success" ∧
    (start_bot ⟨BotStatus.error, true, 0⟩).1.bot_status = BotStatus.starting ∧
    (start_bot ⟨BotStatus.error, true, 0⟩).1.tasks_spawned = 0 + 1 :=
  (C3_start_reject_iff ⟨BotStatus.error, true, 0⟩ rfl).2 (by decide)

/-- C4: a rejected lifecycle call never changes the application state: a
start call while Running returns the AlreadyRunning error and leaves the
state untouched, and a stop call while the status is anything other than
Running returns the NotRunning error and leaves the state untouched. -/
theorem C4_rejected_calls_preserve_state (s : AppState) :
    (s.bot_status = BotStatus.running →
      (start_bot s).1 = s ∧
      (start_bot s).2.status = "error" ∧
      (start_bot s).2.message = "Bot is already running") ∧
    (s.bot_status ≠ BotStatus.running →
      (stop_bot s).1 = s ∧
      (stop_bot s).2.status = "error" ∧
      (stop_bot s).2.message =
        "Bot is not running (status: " ++ s.bot_status.toString ++ ")") := by
  constructor
  · intro h
    simp [start_bot, h]
  · intro h
    simp [stop_bot, h]

/-- C4 witness: a stop call on a Stopped bot is rejected with the NotRunning
error and the state is unchanged. -/
theorem C4_rejected_calls_preserve_state_witness :
    (stop_bot ⟨BotStatus.stopped, true, 0⟩).1 = ⟨BotStatus.stopped, true, 0⟩ ∧
    (stop_bot ⟨BotStatus.stopped, true, 0⟩).2.status = "error" ∧
    (stop_bot ⟨BotStatus.stopped, true, 0⟩).2.message =
      "Bot is not running (status: " ++ (BotStatus.stopped).toString ++ ")" :=
  (C4_rejected_calls_preserve_state ⟨BotStatus.stopped, true, 0⟩).2 (by decide)

/-- C5: with the core initialized, the simulate-transaction endpoint rejects
every chain ID outside the active worker set with the chain-inactive error
and performs no simulation and no execution, and for every chain ID in the
active set it simulates exactly once (and still performs no execution: the
endpoint contains no executor call). -/
theorem C5_inactive_chain_rejected (workers : List String) (chain_id : String)
    (o : Opportunity) :
    (chain_id ∉ workers →
      simulate_transaction_endpoint workers true chain_id o =
        ({ status := "error"
           message := "Chain " ++ chain_id ++ " is not active"
           http_code := 400 }, 0, 0)) ∧
    (chain_id ∈ workers →
      (simulate_transaction_endpoint workers true chain_id o).2 = (1, 0) ∧
      (simulate_transaction_endpoint workers true chain_id o).1.result =
        some (simulate_transaction chain_id o)) := by
  constructor
  · intro h
    simp [simulate_transaction_endpoint, h]
  · intro h
    simp [simulate_transaction_endpoint, h]

/-- C5 witness: with only chain "1" active, a request for chain "137" is
rejected as inactive with no simulation performed. -/
theorem C5_inactive_chain_rejected_witness :
    simulate_transaction_endpoint ["1"] true "137" ⟨PyVal.none, PyVal.none⟩ =
      ({ status := "error"
         message := "Chain " ++ "137" ++ " is not active"
         http_code := 400 }, 0, 0) :=
  (C5_inactive_chain_rejected ["1"] "137" ⟨PyVal.none, PyVal.none⟩).1 (by decide)

/-- C6 counterexample: an amount of "-1" parses to the negative number -1,
yet the source overrides the default with -1 * 0.01 = -0.01 instead of
keeping the default 0.005 claimed for negative amounts. -/
theorem C6_counterexample :
    (simulate_transaction "1" ⟨PyVal.none, PyVal.str "-1"⟩).estimated_profit_eth
        = -(1 / 100) ∧
    (simulate_transaction "1" ⟨PyVal.none, PyVal.str "-1"⟩).estimated_profit_eth
        ≠ 0.005 := by
  have ht : (PyVal.str "-1").truthy = true := by decide
  have hp : parsePyFloat "-1" = some (-1) := by simp [parsePyFloat, digitsVal]
  constructor
  · simp [simulate_transaction, pyFloat, ht, hp]
    norm_num
  · simp [simulate_transaction, pyFloat, ht, hp]
    norm_num

/-- C6 (amended): the estimated profit defaults to 0.005 and is overridden
with amount * 0.01 exactly when the amount field is truthy and the float
conversion succeeds, regardless of sign; a falsy amount or a failed
conversion leaves the default 0.005 in place. -/
theorem C6_profit_override (chain_id : String) (o : Opportunity) :
    (∀ a : ℚ, o.amount.truthy = true → pyFloat o.amount = some a →
      (simulate_transaction chain_id o).estimated_profit_eth = a * 0.01) ∧
    (o.amount.truthy = false ∨ pyFloat o.amount = Option.none →
      (simulate_transaction chain_id o).estimated_profit_eth = 0.005) := by
  constructor
  · intro a ht hp
    simp [simulate_transaction, ht, hp]
  · intro h
    rcases h with h | h
    · simp [simulate_transaction, h]
    · cases htv : o.amount.truthy
      · simp [simulate_transaction, htv]
      · simp [simulate_transaction, htv, h]

/-- C6 witness: an amount of "2" is truthy, parses to 2 and the profit is
overridden to 2 * 0.01. -/
theorem C6_profit_override_witness :
    (simulate_transaction "1" ⟨PyVal.none, PyVal.str "2"⟩).estimated_profit_eth
      = 2 * 0.01 :=
  (C6_profit_override "1" ⟨PyVal.none, PyVal.str "2"⟩).1 2 (by decide)
    (by simp [pyFloat, parsePyFloat, digitsVal])

/-- C7 counterexample: on chain "137" with an empty opportunity the gate
rejects, and the error string is "Profit is less than or equal to cost",
not the "profit does not exceed cost" stated by the claim. -/
theorem C7_counterexample :
    (execute_transaction "137" ⟨PyVal.none, PyVal.none⟩).1.error =
      some "Profit is less than or equal to cost" ∧
    (execute_transaction "137" ⟨PyVal.none, PyVal.none⟩).1.error ≠
      some "profit does not exceed cost" := by
  have he : (execute_transaction "137" ⟨PyVal.none, PyVal.none⟩).1.error =
      some "Profit is less than or equal to cost" := by
    simp [execute_transaction, simulate_transaction, pyFloat, PyVal.truthy]
    norm_num
  exact ⟨he, by rw [he]; decide⟩

/-- C7 (amended): when the gate rejects, the error string is exactly
"Simulation failed" when the simulation success flag is false and exactly
"Profit is less than or equal to cost" when the profit does not strictly
exceed the cost, and in both cases the rejected result carries the
simulation result in its details field. -/
theorem C7_reject_reasons (chain_id : String) (o : Opportunity) :
    ((simulate_transaction chain_id o).success = false →
      (execute_transaction chain_id o).1.error = some "Simulation failed" ∧
      (execute_transaction chain_id o).1.details =
        some (simulate_transaction chain_id o)) ∧
    ((simulate_transaction chain_id o).success = true →
      (simulate_transaction chain_id o).estimated_profit_eth ≤
        (simulate_transaction chain_id o).estimated_cost_eth →
      (execute_transaction chain_id o).1.error =
        some "Profit is less than or equal to cost" ∧
      (execute_transaction chain_id o).1.details =
        some (simulate_transaction chain_id o)) := by
  constructor
  · intro hf
    have hs := simulate_success chain_id o
    rw [hf] at hs
    exact absurd hs (by decide)
  · intro _ hle
    simp [execute_transaction, simulate_success, hle]

/-- C7 witness: on chain "137" with an empty opportunity the profit equals
the cost, the gate rejects with the profit error string and the details
field carries the simulation result. -/
theorem C7_reject_reasons_witness :
    (execute_transaction "137" ⟨PyVal.none, PyVal.none⟩).1.error =
      some "Profit is less than or equal to cost" ∧
    (execute_transaction "137" ⟨PyVal.none, PyVal.none⟩).1.details =
      some (simulate_transaction "137" ⟨PyVal.none, PyVal.none⟩) :=
  (C7_reject_reasons "137" ⟨PyVal.none, PyVal.none⟩).2 rfl
    (by simp [simulate_transaction, pyFloat, PyVal.truthy]; norm_num)

/-- C8: simulate_transaction is a total function of its two arguments (the
embedding is a plain Lean function, so every input yields a result), and a
malformed amount — one the float conversion rejects — is treated exactly as
an absent amount: the whole simulation result is unchanged when the
malformed value is replaced by the missing value. -/
theorem C8_malformed_amount_as_absent (chain_id : String) (o : Opportunity)
    (h : pyFloat o.amount = Option.none) :
    simulate_transaction chain_id o =
      simulate_transaction chain_id { o with amount := PyVal.none } := by
  cases htv : o.amount.truthy
  · simp [simulate_transaction, htv, truthy_none]
  · simp [simulate_transaction, htv, h, truthy_none]

/-- C8 witness: the amount "abc" fails the float conversion and the
simulation result equals the one for a missing amount. -/
theorem C8_malformed_amount_as_absent_witness :
    pyFloat (PyVal.str "abc") = Option.none ∧
    simulate_transaction "1" ⟨PyVal.none, PyVal.str "abc"⟩ =
      simulate_transaction "1" ⟨PyVal.none, PyVal.none⟩ :=
  ⟨by simp [pyFloat, parsePyFloat],
    C8_malformed_amount_as_absent "1" ⟨PyVal.none, PyVal.str "abc"⟩
      (by simp [pyFloat, parsePyFloat])⟩

/-- C9: for every chain ID and opportunity the simulation result carries
success = true, so the "Simulation failed" rejection branch of
execute_transaction is unreachable: the execution result never carries that
error string. -/
theorem C9_simulation_always_succeeds (chain_id : String) (o : Opportunity) :
    (simulate_transaction chain_id o).success = true ∧
    (execute_transaction chain_id o).1.error ≠ some "Simulation failed" := by
  refine ⟨simulate_success chain_id o, ?_⟩
  have hs := simulate_success chain_id o
  simp only [execute_transaction, hs, Bool.not_true, Bool.false_eq_true, if_false]
  split
  · simp
  · simp

/-- C9 witness: on chain "1" with an empty opportunity the simulation
succeeds and the execution result does not carry the simulation-failed
error. -/
theorem C9_simulation_always_succeeds_witness :
    (simulate_transaction "1" ⟨PyVal.none, PyVal.none⟩).success = true ∧
    (execute_transaction "1" ⟨PyVal.none, PyVal.none⟩).1.error ≠
      some "Simulation failed" :=
  C9_simulation_always_succeeds "1" ⟨PyVal.none, PyVal.none⟩

/-- C10: a falsy amount field — the number 0, the empty string, or None —
is treated as absent by the truthiness guard and leaves the default
estimated profit of 0.005 in place, even though the number 0 converts to a
valid non-negative real. -/
theorem C10_falsy_amount_default (chain_id : String) (o : Opportunity)
    (h : o.amount.truthy = false) :
    (simulate_transaction chain_id o).estimated_profit_eth = 0.005 := by
  simp [simulate_transaction, h]

/-- C10 witness: the numeric amount 0 is falsy yet converts to the valid
number 0, and the default profit 0.005 survives. -/
theorem C10_falsy_amount_default_witness :
    (PyVal.num 0).truthy = false ∧
    pyFloat (PyVal.num 0) = some 0 ∧
    (simulate_transaction "1" ⟨PyVal.none, PyVal.num 0⟩).estimated_profit_eth
      = 0.005 :=
  ⟨by decide, by decide,
    C10_falsy_amount_default "1" ⟨PyVal.none, PyVal.num 0⟩ (by decide)⟩

end ON1Builder
